import Mathlib

/-!
Shallow embedding of the Foodscan (ScanEat) repository core:
nutrition resolver (`nutrition_api.py`), plate aggregator, meal log,
weekly summary and coach (`app.py`), recommendation rules
(`recommendations.py`), and food recognition (`food_recognition.py`).

Python decimal/float quantities are modelled as exact rationals (`ℚ`);
Python `int` as `ℤ`.  Food names are Lean `String`s.  The network
collaborators (Clarifai, Open Food Facts) appear as explicit inputs:
a classifier response, a fetch response, or an abstract
`String → Option NutritionRec` fallback function.
-/

/-- Python `int(x)` on a number: truncation toward zero. -/
def pyTrunc (q : ℚ) : ℤ :=
  Int.tdiv q.num (q.den : ℤ)

/-- Python `round(x)` on a number with no digit argument:
round half to even (banker's rounding) to an integer. -/
def pyRound (q : ℚ) : ℤ :=
  let f : ℤ := ⌊q⌋
  let r : ℚ := q - f
  if 2 * r < 1 then f
  else if 1 < 2 * r then f + 1
  else if Even f then f else f + 1

/-- Python `round(x, 1)`: round half to even at one decimal place. -/
def round1 (q : ℚ) : ℚ :=
  Rat.divInt (pyRound (q * 10)) 10

/-- Display formatting of a number with no decimals (Python `f"{x:.0f}"`);
the textual rendering of the digits is abstracted to `toString`. -/
def fmt0 (q : ℚ) : String :=
  toString (pyRound q)

/-- Display formatting of a number with one decimal (Python `f"{x:.1f}"`);
the textual rendering of the digits is abstracted to `toString`. -/
def fmt1 (q : ℚ) : String :=
  toString (round1 q)

/-- A nutrition record, as the dictionaries stored in
`LOCAL_NUTRITION_DB` and produced by `_fetch_from_openfoodfacts`
(`nutrition_api.py`). -/
structure NutritionRec where
  calories : ℤ
  protein : ℚ
  carbs : ℚ
  fat : ℚ
  fiber : ℚ
  vitamins : List (String × String)
  minerals : List (String × String)
deriving Repr, DecidableEq

/-- `LOCAL_NUTRITION_DB` from `nutrition_api.py`, as an association list
in the dictionary's declared (insertion) order. -/
def LOCAL_NUTRITION_DB : List (String × NutritionRec) :=
  [ ("pizza",
      { calories := 285, protein := 12, carbs := 36, fat := 10, fiber := 2,
        vitamins := [("Vit A", "10%"), ("Vit C", "0%"), ("Vit B12", "15%")],
        minerals := [("Calcium", "18%"), ("Iron", "10%"), ("Sodium", "25%")] }),
    ("burger",
      { calories := 295, protein := 17, carbs := 30, fat := 13, fiber := 1,
        vitamins := [("Vit B12", "30%"), ("Vit B6", "20%"), ("Vit A", "6%")],
        minerals := [("Iron", "20%"), ("Zinc", "15%"), ("Sodium", "23%")] }),
    ("idli",
      { calories := 60, protein := 2, carbs := 12, fat := mkRat 2 5, fiber := mkRat 3 5,
        vitamins := [("Vit B1", "5%"), ("Vit B2", "4%"), ("Folate", "6%")],
        minerals := [("Iron", "2%"), ("Calcium", "2%"), ("Potassium", "2%")] }),
    ("dosa",
      { calories := 168, protein := 4, carbs := 27, fat := mkRat 9 2, fiber := mkRat 3 2,
        vitamins := [("Vit B1", "5%"), ("Vit B2", "5%"), ("Folate", "6%")],
        minerals := [("Iron", "5%"), ("Calcium", "3%"), ("Sodium", "4%")] }),
    ("biryani",
      { calories := 350, protein := 12, carbs := 45, fat := 12, fiber := mkRat 5 2,
        vitamins := [("Vit A", "5%"), ("Vit B12", "10%"), ("Vit C", "4%")],
        minerals := [("Iron", "10%"), ("Sodium", "18%"), ("Potassium", "8%")] }),
    ("paneer butter masala",
      { calories := 400, protein := 15, carbs := 20, fat := 28, fiber := 2,
        vitamins := [("Vit A", "15%"), ("Vit B12", "20%"), ("Vit D", "10%")],
        minerals := [("Calcium", "25%"), ("Iron", "6%"), ("Sodium", "12%")] }),
    ("salad",
      { calories := 80, protein := 2, carbs := 12, fat := 3, fiber := 3,
        vitamins := [("Vit A", "60%"), ("Vit C", "40%"), ("Vit K", "70%")],
        minerals := [("Potassium", "8%"), ("Calcium", "4%"), ("Iron", "6%")] }),
    ("rice",
      { calories := 200, protein := 4, carbs := 44, fat := mkRat 2 5, fiber := mkRat 3 5,
        vitamins := [("Vit B1", "12%"), ("Vit B3", "15%"), ("Folate", "8%")],
        minerals := [("Iron", "2%"), ("Magnesium", "5%"), ("Selenium", "15%")] }),
    ("roti",
      { calories := 110, protein := 3, carbs := 20, fat := 2, fiber := 2,
        vitamins := [("Vit B1", "5%"), ("Vit B3", "6%"), ("Folate", "4%")],
        minerals := [("Iron", "4%"), ("Magnesium", "6%"), ("Potassium", "2%")] }) ]

/-- Python `str.strip()` on a char list: drop leading and trailing
whitespace (inputs here are ASCII, so `Char.isWhitespace` coincides
with Python's whitespace set). -/
def pyStrip (s : List Char) : List Char :=
  ((s.dropWhile Char.isWhitespace).reverse.dropWhile Char.isWhitespace).reverse

/-- `_normalize` from `nutrition_api.py`: strip surrounding whitespace
and lowercase (ASCII lowering, as the table keys are ASCII). -/
def normalize_name (food_name : String) : String :=
  ⟨(pyStrip food_name.data).map Char.toLower⟩

/-- `needle in hay` on Python strings restricted to char lists:
contiguous-sublist containment. -/
def subListOf (needle : List Char) : List Char → Bool
  | [] => needle.isEmpty
  | c :: rest => needle.isPrefixOf (c :: rest) || subListOf needle rest

/-- `needle in hay` on Python strings: substring containment. -/
def strContains (needle hay : String) : Bool :=
  subListOf needle.data hay.data

/-- `_lookup_local` from `nutrition_api.py`: exact key match against the
local table first, otherwise the first table entry (in declared order)
whose key contains the normalized name or is contained in it. -/
def lookup_local (food_name : String) : Option NutritionRec :=
  let key := normalize_name food_name
  match LOCAL_NUTRITION_DB.find? (fun p => p.1 == key) with
  | some p => some p.2
  | none =>
    (LOCAL_NUTRITION_DB.find? (fun p =>
      strContains key p.1 || strContains p.1 key)).map Prod.snd

/-- One product of an Open Food Facts search response: its `nutriments`
JSON object, as an association list from nutrient key to numeric value. -/
structure OFFProduct where
  nutriments : List (String × ℚ)
deriving Repr, DecidableEq

/-- An Open Food Facts search response body: its `products` array. -/
structure OFFResponse where
  products : List OFFProduct
deriving Repr, DecidableEq

/-- `_fetch_from_openfoodfacts` from `nutrition_api.py`, with the HTTP
round-trip made explicit: the input is the decoded response body, or
`none` when the request or decoding failed (the `except` path).
`get_nutrient` reads `<key>_100g` with default `0.0`. -/
def fetch_from_openfoodfacts (resp : Option OFFResponse) : Option NutritionRec :=
  match resp with
  | none => none
  | some data =>
    match data.products with
    | [] => none
    | product :: _ =>
      let get_nutrient : String → ℚ := fun key =>
        ((product.nutriments.lookup (key ++ "_100g")).getD 0)
      let calories : ℤ := pyTrunc (get_nutrient ("energy-kcal"))
      let protein := get_nutrient ("proteins")
      let carbs := get_nutrient ("carbohydrates")
      let fat := get_nutrient ("fat")
      let fiber := get_nutrient ("fiber")
      let vit_a := get_nutrient ("vitamin-a")
      let vit_c := get_nutrient ("vitamin-c")
      let vitamins : List (String × String) :=
        (if 0 < vit_a then [("Vit A", fmt1 vit_a ++ " µg")] else []) ++
        (if 0 < vit_c then [("Vit C", fmt1 vit_c ++ " mg")] else [])
      let calcium := get_nutrient ("calcium")
      let iron := get_nutrient ("iron")
      let sodium := get_nutrient ("sodium")
      let potassium := get_nutrient ("potassium")
      let minerals : List (String × String) :=
        (if 0 < calcium then [("Calcium", fmt1 calcium ++ " mg")] else []) ++
        (if 0 < iron then [("Iron", fmt1 iron ++ " mg")] else []) ++
        (if 0 < sodium then [("Sodium", fmt1 sodium ++ " mg")] else []) ++
        (if 0 < potassium then [("Potassium", fmt1 potassium ++ " mg")] else [])
      some
        { calories := calories
          protein := round1 protein
          carbs := round1 carbs
          fat := round1 fat
          fiber := round1 fiber
          vitamins := if vitamins.isEmpty then [("Info", "Not available")] else vitamins
          minerals := if minerals.isEmpty then [("Info", "Not available")] else minerals }

/-- `get_nutrition_info` from `nutrition_api.py`: local table first, then
the external fallback (abstracted as the function `fetch`, the composite
of the HTTP call and `fetch_from_openfoodfacts`), else `none`. -/
def get_nutrition_info (fetch : String → Option NutritionRec)
    (food_name : String) : Option NutritionRec :=
  match lookup_local food_name with
  | some local_rec => some local_rec
  | none => fetch food_name

example : normalize_name ("  Cheese Pizza ") = "cheese pizza" := by decide
example : lookup_local ("cheese pizza") =
    some ((LOCAL_NUTRITION_DB.get ⟨0, by decide⟩).2) := by decide
example : lookup_local ("zzz") = none := by decide

/-- The five numeric plate totals (`combined_nutrition` in the Scan Food
page of `app.py`). -/
structure Totals where
  calories : ℚ
  protein : ℚ
  carbs : ℚ
  fat : ℚ
  fiber : ℚ
deriving Repr, DecidableEq

@[ext] theorem Totals.ext_fields {a b : Totals}
    (h1 : a.calories = b.calories) (h2 : a.protein = b.protein)
    (h3 : a.carbs = b.carbs) (h4 : a.fat = b.fat) (h5 : a.fiber = b.fiber) :
    a = b := by
  cases a; cases b; simp_all

/-- The zero totals the Scan Food page starts from. -/
def Totals.zero : Totals :=
  { calories := 0, protein := 0, carbs := 0, fat := 0, fiber := 0 }

/-- One step of the plate-aggregation loop in `app.py` (lines 380-389):
an unresolvable item goes to `missing_items`, a resolved record is added
field by field into the running totals. -/
def aggStep (resolve : String → Option NutritionRec)
    (acc : Totals × List String) (item : String) : Totals × List String :=
  match resolve item with
  | none => (acc.1, acc.2 ++ [item])
  | some n =>
    ({ calories := acc.1.calories + (n.calories : ℚ)
       protein := acc.1.protein + n.protein
       carbs := acc.1.carbs + n.carbs
       fat := acc.1.fat + n.fat
       fiber := acc.1.fiber + n.fiber }, acc.2)

/-- Multiply every field of the totals by the portion factor
(the `for k in combined_nutrition: combined_nutrition[k] *= portion`
loop in `app.py`). -/
def Totals.scale (t : Totals) (portion : ℚ) : Totals :=
  { calories := t.calories * portion, protein := t.protein * portion,
    carbs := t.carbs * portion, fat := t.fat * portion,
    fiber := t.fiber * portion }

/-- The plate aggregation of the Scan Food page (`app.py` lines 368-393):
resolve each selected item, sum resolved records, collect unresolved
items, then scale every total by the portion factor. -/
def aggregatePlate (resolve : String → Option NutritionRec)
    (items : List String) (portion : ℚ) : Totals × List String :=
  let acc := items.foldl (aggStep resolve) (Totals.zero, [])
  (acc.1.scale portion, acc.2)

/-- A meal-log entry (`st.session_state["log_entries"]` in `app.py`).
Calendar dates are modelled as day numbers in `ℤ` (the code stores ISO
date strings, whose comparison order is the day order); the thumbnail
image is omitted as it carries no data any claim touches. -/
structure LogEntry where
  day : ℤ
  time : String
  foods : List String
  calories : ℤ
  protein : ℚ
  carbs : ℚ
  fat : ℚ
  fiber : ℚ
  portion : ℚ
  goal : String
deriving Repr, DecidableEq

/-- The last-7-days filter of the Weekly Summary page (`app.py` lines
617-624): entries with `today - 6 ≤ day ≤ today`. -/
def weekFiltered (logs : List LogEntry) (today : ℤ) : List LogEntry :=
  logs.filter (fun e => decide (today - 6 ≤ e.day) && decide (e.day ≤ today))

/-- Per-day calorie totals of the Weekly Summary page: the value
`day_map.get(d, 0)` after the `day_map` aggregation loop, i.e. the sum
of the calories of the given entries dated `d`. -/
def dayCalories (entries : List LogEntry) (d : ℤ) : ℤ :=
  (entries.filter (fun e => e.day == d)).foldl (fun s e => s + e.calories) 0

/-- The weekly calorie series of the Weekly Summary page (`app.py` lines
607-652).  The page renders nothing when the session log is empty or no
entry falls in the 7-day window (the two `st.info` early exits), hence
the `Option`; otherwise it builds the 7 days `today-6 .. today` in order
with their (zero-filled) calorie totals. -/
def weeklySeries (logs : List LogEntry) (today : ℤ) : Option (List (ℤ × ℤ)) :=
  if logs.isEmpty then none
  else
    let filtered := weekFiltered logs today
    if filtered.isEmpty then none
    else some ((List.range 7).map (fun i : ℕ =>
      (today - 6 + (i : ℤ), dayCalories filtered (today - 6 + (i : ℤ)))))

/-- One step of the `food_counts` dictionary build in `app.py` (lines
655-658): bump the count of a food already present (keeping its
position, as Python dicts keep insertion order), else append it with
count 1. -/
def insertCount : List (String × ℕ) → String → List (String × ℕ)
  | [], f => [(f, 1)]
  | (k, c) :: rest, f =>
    if k = f then (k, c + 1) :: rest else (k, c) :: insertCount rest f

/-- The `food_counts` dictionary of the Weekly Summary page, as an
association list in key-insertion (first-encounter) order. -/
def food_counts (entries : List LogEntry) : List (String × ℕ) :=
  entries.foldl (fun m e => e.foods.foldl insertCount m) []

/-- The relation `sorted(..., key=lambda x: x[1], reverse=True)` sorts
by: count of the left element at least that of the right. -/
def countGE (a b : String × ℕ) : Prop :=
  b.2 ≤ a.2

instance : DecidableRel countGE := fun a b =>
  inferInstanceAs (Decidable (b.2 ≤ a.2))

instance : IsTotal (String × ℕ) countGE :=
  ⟨fun a b => le_total b.2 a.2⟩

instance : IsTrans (String × ℕ) countGE :=
  ⟨fun _ _ _ h1 h2 => le_trans h2 h1⟩

/-- `top_foods` of the Weekly Summary page (`app.py` line 661): the food
counts sorted by count descending.  Python's `sorted` is the stable
descending sort, which `insertionSort` with `countGE` computes. -/
def topFoodsAll (entries : List LogEntry) : List (String × ℕ) :=
  (food_counts entries).insertionSort countGE

/-- The displayed top foods (`top_foods[:5]` in `app.py` line 663). -/
def topFoods (entries : List LogEntry) (limit : ℕ) : List (String × ℕ) :=
  (topFoodsAll entries).take limit

/-- Total calories of a list of entries (`sum(e["calories"] ...)`). -/
def totalCals (entries : List LogEntry) : ℤ :=
  (entries.map (·.calories)).sum

/-- Total protein of a list of entries. -/
def totalProtein (entries : List LogEntry) : ℚ :=
  (entries.map (·.protein)).sum

/-- Total carbs of a list of entries. -/
def totalCarbs (entries : List LogEntry) : ℚ :=
  (entries.map (·.carbs)).sum

/-- Total fat of a list of entries. -/
def totalFat (entries : List LogEntry) : ℚ :=
  (entries.map (·.fat)).sum

/-- Coach message for an empty day (`generate_coach_message`, `app.py`
lines 58-62). -/
def noMealsMsg : String :=
  "You haven\x27t logged any meals today yet. Scan and log your meals to get personalized coaching."

/-- Calorie verdict: below band, goal `lose` (`app.py` lines 89-92). -/
def belowLoseMsg : String :=
  "You\x27re **below** the typical calorie range for weight loss. Make sure you\x27re not undereating; add some nutrient-dense foods like dal, paneer, eggs, nuts."

/-- Calorie verdict: below band, goal `gain` (`app.py` lines 94-97). -/
def belowGainMsg : String :=
  "You\x27re well **below** the calorie range needed for weight gain. Add at least one more solid meal or calorie-dense snacks."

/-- Calorie verdict: below band, goal `maintain` (`app.py` lines 99-102). -/
def belowMaintainMsg : String :=
  "You\x27re **under** a typical maintenance range. If you feel low on energy, consider adding an extra balanced meal."

/-- Calorie verdict: above band, goal `lose` (`app.py` lines 105-108). -/
def aboveLoseMsg : String :=
  "You\x27re **above** the usual calorie range for weight loss today. Balance it tomorrow with lighter meals and more activity."

/-- Calorie verdict: above band, goal `gain` (`app.py` lines 110-113). -/
def aboveGainMsg : String :=
  "You\x27re on the **higher** side of calories, which can support weight gain, but ensure they come from quality foods, not just junk."

/-- Calorie verdict: above band, goal `maintain` (`app.py` lines 115-118). -/
def aboveMaintainMsg : String :=
  "You\x27re **above** a typical maintenance range. If days like this are frequent, it may slowly lead to weight gain."

/-- Calorie verdict: within band, goal `lose` (`app.py` lines 121-124). -/
def withinLoseMsg : String :=
  "Nice! Your total calories are within a reasonable range for weight loss today. Keep focusing on protein and fiber to stay full."

/-- Calorie verdict: within band, goal `gain` (`app.py` lines 126-129). -/
def withinGainMsg : String :=
  "Good! Your total calories are in a decent range for weight gain. Combine this with strength training to gain mostly muscle."

/-- Calorie verdict: within band, goal `maintain` (`app.py` lines 131-134). -/
def withinMaintainMsg : String :=
  "You\x27re roughly in a **maintenance** range today. If your weight stays stable over weeks, this is likely your sweet spot."

/-- The nine calorie-band verdict wordings, one per band × goal. -/
def nineVerdicts : List String :=
  [belowLoseMsg, belowGainMsg, belowMaintainMsg,
   aboveLoseMsg, aboveGainMsg, aboveMaintainMsg,
   withinLoseMsg, withinGainMsg, withinMaintainMsg]

/-- Protein verdict: low (`app.py` lines 137-140). -/
def proteinLowMsg : String :=
  "Protein intake looks on the **lower side**. Try to include more dal, paneer, chana, rajma, eggs or lean meat."

/-- Protein verdict: high (`app.py` lines 141-144). -/
def proteinHighMsg : String :=
  "Protein intake is **quite high**, which is okay if you train regularly, but keep hydration up and balance with veggies."

/-- Protein verdict: okay (`app.py` lines 145-148). -/
def proteinOkMsg : String :=
  "Protein intake looks **okay** for a typical day. Good job including some protein sources."

/-- Carb-heavy balance note (`app.py` lines 151-154). -/
def carbHeavyMsg : String :=
  "Your day leaned more towards **carb-heavy** meals. Try adding some healthy fats (nuts, seeds, ghee in moderation) and protein."

/-- Fat-heavy balance note (`app.py` lines 155-158). -/
def fatHeavyMsg : String :=
  "Your day is a bit **fat-heavy**. Reduce deep-fried and creamy foods and replace them with grilled/steamed options."

/-- Closing behaviour tip (`app.py` lines 161-164). -/
def tipMsg : String :=
  "💡 Tip: Try to spread your calories across the day (breakfast, lunch, dinner, 1–2 snacks) instead of having one very heavy meal."

/-- The coach summary line (`app.py` line 80). -/
def summaryLine (meals_count : ℕ) (total_cals : ℤ) : String :=
  "📊 You logged **" ++ toString meals_count ++
    "** meal(s) today with about **" ++ toString total_cals ++
    " kcal** in total."

/-- The coach macros line (`app.py` lines 81-84). -/
def macrosLine (total_protein total_carbs total_fat : ℚ) : String :=
  "Approx macros: **Protein** " ++ fmt0 total_protein ++
    " g, **Carbs** " ++ fmt0 total_carbs ++
    " g, **Fat** " ++ fmt0 total_fat ++ " g."

/-- The target calorie band per goal (`app.py` lines 71-76); any goal
other than `lose` and `gain` falls to the maintain band. -/
def targetBand (goal : String) : ℤ × ℤ :=
  if goal = "lose" then (1400, 1900)
  else if goal = "gain" then (2200, 2800)
  else (1800, 2300)

/-- The single calorie-band verdict line appended by `app.py` lines
86-134: below / above / within the goal's band, with goal-specific
wording. -/
def calorieVerdict (goal : String) (total_cals : ℤ) : String :=
  let band := targetBand goal
  if total_cals < band.1 then
    if goal = "lose" then belowLoseMsg
    else if goal = "gain" then belowGainMsg
    else belowMaintainMsg
  else if band.2 < total_cals then
    if goal = "lose" then aboveLoseMsg
    else if goal = "gain" then aboveGainMsg
    else aboveMaintainMsg
  else
    if goal = "lose" then withinLoseMsg
    else if goal = "gain" then withinGainMsg
    else withinMaintainMsg

/-- The protein verdict line (`app.py` lines 136-148). -/
def proteinVerdict (total_protein : ℚ) : String :=
  if total_protein < 50 then proteinLowMsg
  else if 120 < total_protein then proteinHighMsg
  else proteinOkMsg

/-- The optional carb/fat balance note (`app.py` lines 150-158):
carb-heavy when `total_carbs > total_fat * 4`, otherwise fat-heavy when
`total_fat > total_carbs`, otherwise nothing. -/
def carbFatNotes (total_carbs total_fat : ℚ) : List String :=
  if total_fat * 4 < total_carbs then [carbHeavyMsg]
  else if total_carbs < total_fat then [fatHeavyMsg]
  else []

/-- The `lines` list built by `generate_coach_message` (`app.py` lines
56-166) on today's entries; the empty-day early return is the single
no-meals message. -/
def generate_coach_lines (goal : String) (entries : List LogEntry) :
    List String :=
  if entries.isEmpty then [noMealsMsg]
  else
    [summaryLine entries.length (totalCals entries),
     macrosLine (totalProtein entries) (totalCarbs entries) (totalFat entries),
     calorieVerdict goal (totalCals entries),
     proteinVerdict (totalProtein entries)] ++
    carbFatNotes (totalCarbs entries) (totalFat entries) ++
    [tipMsg]

/-- `generate_coach_message`: the lines joined by blank lines. -/
def generate_coach_message (goal : String) (entries : List LogEntry) :
    String :=
  String.intercalate ("\n\n") (generate_coach_lines goal entries)

/-- Python `str.lower()` (ASCII lowering), used for the keyword checks
in `recommendations.py` (no strip there). -/
def pyLower (s : String) : String :=
  ⟨s.data.map Char.toLower⟩

/-- Lose-goal high-calorie message (`recommendations.py` lines 65-68). -/
def recHighCalLose (calories : ℤ) : String :=
  "This looks like a high-calorie meal (~" ++ toString calories ++
    " kcal). For weight loss, reduce portion size, share it, or balance with very light meals."

/-- Lose-goal fits-weight-loss message (`recommendations.py` lines 70-73). -/
def recFitsLose (calories : ℤ) : String :=
  "At around " ++ toString calories ++
    " kcal, this can fit a weight loss plan if your daily calories remain in deficit."

/-- Lose-goal fat note (`recommendations.py` line 75). -/
def recLoseFat : String :=
  "Fat is on the higher side. Avoid adding extra ghee, butter, or fried sides."

/-- Lose-goal fiber note (`recommendations.py` line 77). -/
def recLoseFiber : String :=
  "Fiber is low. Add salad, fruits, or vegetables with this meal to stay full longer."

/-- Gain-goal low-calorie message (`recommendations.py` lines 80-83). -/
def recLowCalGain (calories : ℤ) : String :=
  "This meal has only ~" ++ toString calories ++
    " kcal. For healthy weight gain, consider adding an extra roti, rice, or a protein-rich side."

/-- Gain-goal surplus message (`recommendations.py` lines 85-87). -/
def recSurplusGain (calories : ℤ) : String :=
  "With ~" ++ toString calories ++
    " kcal, this supports a calorie surplus if combined with your other meals."

/-- Gain-goal protein note (`recommendations.py` lines 88-91). -/
def recGainProtein : String :=
  "Protein is on the lower side. For muscle gain, add paneer, lentils, eggs, or whey."

/-- Maintain-goal generic note (`recommendations.py` lines 93-96). -/
def recMaintain (calories : ℤ) : String :=
  "With ~" ++ toString calories ++
    " kcal, this can fit into a balanced diet if your overall daily intake is around your maintenance level."

/-- Maintain-goal fat note (`recommendations.py` line 98). -/
def recMaintainFat : String :=
  "Fat is slightly high. Reduce cream-based gravies or deep-fried items."

/-- Maintain-goal carbs note (`recommendations.py` line 100). -/
def recMaintainCarbs : String :=
  "Carbs are high. Balance with more protein and fiber in other meals."

/-- Universal protein suggestion (`recommendations.py` lines 103-106). -/
def recUniProtein : String :=
  "Add a protein-rich side (dal, paneer, chana, rajma, eggs) to make this meal more filling and muscle-friendly."

/-- Universal fiber suggestion (`recommendations.py` lines 107-110). -/
def recUniFiber : String :=
  "Very low fiber. Add salad, fruits, or whole grains for better digestion and satiety."

/-- Late-night keyword caution (`recommendations.py` lines 114-117). -/
def recLateNight : String :=
  "Try to avoid very heavy, oily foods late at night. If you eat this for dinner, keep the portion small."

/-- Breakfast/dinner keyword note (`recommendations.py` lines 118-121). -/
def recBreakfast : String :=
  "This can be a good choice for breakfast or dinner when paired with some protein."

/-- `get_meal_recommendations` from `recommendations.py` (lines 53-123),
emitting its advisory strings in the source's fixed rule order. -/
def get_meal_recommendations (food_name : String) (nutrition : NutritionRec)
    (goal : String) : List String :=
  let calories := nutrition.calories
  let protein := nutrition.protein
  let carbs := nutrition.carbs
  let fat := nutrition.fat
  let fiber := nutrition.fiber
  let goal_recs :=
    if goal = "lose" then
      (if 600 < calories then [recHighCalLose calories] else [recFitsLose calories]) ++
      (if 20 < fat then [recLoseFat] else []) ++
      (if fiber < 3 then [recLoseFiber] else [])
    else if goal = "gain" then
      (if calories < 400 then [recLowCalGain calories] else [recSurplusGain calories]) ++
      (if protein < 15 then [recGainProtein] else [])
    else
      [recMaintain calories] ++
      (if 25 < fat then [recMaintainFat] else []) ++
      (if 50 < carbs then [recMaintainCarbs] else [])
  let general_recs :=
    (if protein < 10 then [recUniProtein] else []) ++
    (if fiber < 2 then [recUniFiber] else [])
  let food_key := pyLower food_name
  let keyword_recs :=
    (if strContains ("biryani") food_key || strContains ("butter") food_key ||
        strContains ("fried") food_key
     then [recLateNight] else []) ++
    (if strContains ("salad") food_key || strContains ("idli") food_key ||
        strContains ("dosa") food_key
     then [recBreakfast] else [])
  goal_recs ++ general_recs ++ keyword_recs

/-- The contribution of one item to one plate total: the field of its
resolved record, zero when unresolved. -/
def resolvedField (resolve : String → Option NutritionRec)
    (field : NutritionRec → ℚ) (item : String) : ℚ :=
  ((resolve item).map field).getD 0

/-- One Clarifai concept (`food_recognition.py`): a label and a
confidence.  An absent `name` key is `none`; an absent `value` key is
modelled as its Python default `0.0`, which every read site applies. -/
structure FoodConcept where
  name : Option String
  value : ℚ
deriving Repr, DecidableEq

/-- `sorted(concepts, key=lambda c: c.get("value", 0.0), reverse=True)`
sorts by: confidence of the left element at least that of the right. -/
def confGE (a b : FoodConcept) : Prop :=
  b.value ≤ a.value

instance : DecidableRel confGE := fun a b =>
  inferInstanceAs (Decidable (b.value ≤ a.value))

instance : IsTotal FoodConcept confGE :=
  ⟨fun a b => le_total b.value a.value⟩

instance : IsTrans FoodConcept confGE :=
  ⟨fun _ _ _ h1 h2 => le_trans h2 h1⟩

/-- `FOOD_CONFIDENCE_THRESHOLD` from `food_recognition.py` line 18. -/
def FOOD_CONFIDENCE_THRESHOLD : ℚ := mkRat 1 2

/-- The result dictionary of `recognize_food_advanced`. -/
structure RecogResult where
  name : String
  confidence : ℚ
  alternatives : List String
deriving Repr, DecidableEq

/-- `recognize_food_advanced` from `food_recognition.py` (lines 92-137),
with the classifier call made explicit: the input is the concept list
returned by `_clarifai_predict`, or `none` on API failure.  Python's
`if not concepts` covers both `None` and the empty list. -/
def recognize_food_advanced (concepts? : Option (List FoodConcept)) :
    RecogResult :=
  match concepts? with
  | none => { name := "unknown", confidence := 0, alternatives := [] }
  | some concepts =>
    if concepts.isEmpty then
      { name := "unknown", confidence := 0, alternatives := [] }
    else
      match concepts.insertionSort confGE with
      | [] => { name := "unknown", confidence := 0, alternatives := [] }
      | main :: rest =>
        let food_name := main.name.getD ("unknown")
        let confidence := main.value
        if confidence < FOOD_CONFIDENCE_THRESHOLD then
          { name := "unknown", confidence := confidence, alternatives := [] }
        else
          { name := food_name, confidence := confidence,
            alternatives := (rest.take 5).filterMap (fun c =>
              match c.name with
              | some s => if s ≠ "" ∧ mkRat 1 5 ≤ c.value then some s else none
              | none => none) }

/-- The Scan Food page's recognition gate (`app.py` line 322): the
result is rejected when the name is `"unknown"` or the confidence is
below `0.3`. -/
def appRejects (r : RecogResult) : Bool :=
  r.name == "unknown" || decide (r.confidence < mkRat 3 10)

/-- `combined_nutrition` of the Scan Food page: `none` when no plate
items are selected (`app.py` lines 368-370), otherwise the plate
aggregation. -/
def combinedFor (resolve : String → Option NutritionRec)
    (selected_items : List String) (portion : ℚ) :
    Option (Totals × List String) :=
  if selected_items.isEmpty then none
  else some (aggregatePlate resolve selected_items portion)

/-- A single nutrition record scaled by the portion factor (the
`main_nutrition[...] * portion` fallback of `app.py` lines 476-480). -/
def scaleRec (n : NutritionRec) (portion : ℚ) : Totals :=
  { calories := (n.calories : ℚ) * portion, protein := n.protein * portion,
    carbs := n.carbs * portion, fat := n.fat * portion,
    fiber := n.fiber * portion }

/-- The weight-impact / logging value selection of `app.py` lines
468-480: use the combined totals when they exist with positive
calories, otherwise the main item's record times the portion factor. -/
def usedTotals (resolve : String → Option NutritionRec)
    (selected_items : List String) (portion : ℚ)
    (main_nutrition : NutritionRec) : Totals :=
  match combinedFor resolve selected_items portion with
  | some acc => if 0 < acc.1.calories then acc.1 else scaleRec main_nutrition portion
  | none => scaleRec main_nutrition portion

/-- The logged entry's foods list (`app.py` line 506): the selected
items, defaulting to the single main food name when none are selected. -/
def entryFoods (selected_items : List String) (food_name : String) :
    List String :=
  if selected_items.isEmpty then [food_name] else selected_items

/-- The log entry built by the "Add this meal to today's log" button
(`app.py` lines 500-516). -/
def buildEntry (resolve : String → Option NutritionRec) (today : ℤ)
    (time : String) (selected_items : List String) (food_name : String)
    (main_nutrition : NutritionRec) (portion : ℚ) (goal : String) :
    LogEntry :=
  let used := usedTotals resolve selected_items portion main_nutrition
  { day := today, time := time,
    foods := entryFoods selected_items food_name,
    calories := pyRound used.calories,
    protein := round1 used.protein,
    carbs := round1 used.carbs,
    fat := round1 used.fat,
    fiber := round1 used.fiber,
    portion := portion, goal := goal }

/-- The recommendation sequence exactly as claim C7 and spec §4.6 word
it: identical to the source rules except that no lose-goal fiber check
appears among the goal-specific secondary checks. -/
def recsClaimedC7 (food_name : String) (nutrition : NutritionRec)
    (goal : String) : List String :=
  let calories := nutrition.calories
  let protein := nutrition.protein
  let carbs := nutrition.carbs
  let fat := nutrition.fat
  let fiber := nutrition.fiber
  let goal_recs :=
    if goal = "lose" then
      (if 600 < calories then [recHighCalLose calories] else [recFitsLose calories]) ++
      (if 20 < fat then [recLoseFat] else [])
    else if goal = "gain" then
      (if calories < 400 then [recLowCalGain calories] else [recSurplusGain calories]) ++
      (if protein < 15 then [recGainProtein] else [])
    else
      [recMaintain calories] ++
      (if 25 < fat then [recMaintainFat] else []) ++
      (if 50 < carbs then [recMaintainCarbs] else [])
  let general_recs :=
    (if protein < 10 then [recUniProtein] else []) ++
    (if fiber < 2 then [recUniFiber] else [])
  let food_key := pyLower food_name
  let keyword_recs :=
    (if strContains ("biryani") food_key || strContains ("butter") food_key ||
        strContains ("fried") food_key
     then [recLateNight] else []) ++
    (if strContains ("salad") food_key || strContains ("idli") food_key ||
        strContains ("dosa") food_key
     then [recBreakfast] else [])
  goal_recs ++ general_recs ++ keyword_recs

/-- The claim-C7 sequence amended minimally: the same fixed rule order,
with the lose-goal secondary checks being `fat > 20` and then
`fiber < 3` (the check the claim omitted). -/
def recsAmendedC7 (food_name : String) (nutrition : NutritionRec)
    (goal : String) : List String :=
  let calories := nutrition.calories
  let protein := nutrition.protein
  let carbs := nutrition.carbs
  let fat := nutrition.fat
  let fiber := nutrition.fiber
  let goal_recs :=
    if goal = "lose" then
      (if 600 < calories then [recHighCalLose calories] else [recFitsLose calories]) ++
      (if 20 < fat then [recLoseFat] else []) ++
      (if fiber < 3 then [recLoseFiber] else [])
    else if goal = "gain" then
      (if calories < 400 then [recLowCalGain calories] else [recSurplusGain calories]) ++
      (if protein < 15 then [recGainProtein] else [])
    else
      [recMaintain calories] ++
      (if 25 < fat then [recMaintainFat] else []) ++
      (if 50 < carbs then [recMaintainCarbs] else [])
  let general_recs :=
    (if protein < 10 then [recUniProtein] else []) ++
    (if fiber < 2 then [recUniFiber] else [])
  let food_key := pyLower food_name
  let keyword_recs :=
    (if strContains ("biryani") food_key || strContains ("butter") food_key ||
        strContains ("fried") food_key
     then [recLateNight] else []) ++
    (if strContains ("salad") food_key || strContains ("idli") food_key ||
        strContains ("dosa") food_key
     then [recBreakfast] else [])
  goal_recs ++ general_recs ++ keyword_recs

/-- The value `food_counts.get(f, 0)`-style lookup on a counts
association list: the count stored at the first matching key, zero when
absent. -/
def lookupCount (m : List (String × ℕ)) (g : String) : ℕ :=
  (((m.find? (fun p => p.1 == g))).map Prod.snd).getD 0

/-- The counts dictionary built from one flat list of food names. -/
def countsOf (foods : List String) : List (String × ℕ) :=
  foods.foldl insertCount []

/-- All food occurrences across the entries, in entry order
(the iteration order of the `food_counts` loop). -/
def allFoods (entries : List LogEntry) : List String :=
  (entries.map (fun e => e.foods)).flatten

/-- First-encounter order of the foods, as the spec words it ("ties
broken by first-encountered order"): each food listed once, at the
position of its first occurrence. -/
def specOrder (foods : List String) : List String :=
  foods.foldl (fun acc f => if f ∈ acc then acc else acc ++ [f]) []

/-- The NutritionRecord invariant of spec §3: non-negative calories and
non-negative macro grams. -/
def recInvariant (r : NutritionRec) : Prop :=
  0 ≤ r.calories ∧ 0 ≤ r.protein ∧ 0 ≤ r.carbs ∧ 0 ≤ r.fat ∧ 0 ≤ r.fiber

/-- An Open Food Facts product all of whose nutriment values are
non-negative. -/
def nonnegProduct (p : OFFProduct) : Prop :=
  ∀ kv ∈ p.nutriments, 0 ≤ kv.2

instance : DecidablePred recInvariant := fun r => by
  unfold recInvariant
  infer_instance

instance : DecidablePred nonnegProduct := fun p => by
  unfold nonnegProduct
  infer_instance

/-- A sample log entry for the claims' worked examples. -/
def sampleEntry1 : LogEntry :=
  { day := 3, time := "12:00", foods := ["pizza", "salad"], calories := 285,
    protein := 12, carbs := 36, fat := 10, fiber := 2, portion := 1,
    goal := "lose" }

/-- A second sample log entry for the claims' worked examples. -/
def sampleEntry2 : LogEntry :=
  { day := 3, time := "19:00", foods := ["pizza"], calories := 300,
    protein := 10, carbs := 30, fat := 12, fiber := 1, portion := 1,
    goal := "lose" }

/-! ## Theorems -/

lemma aggLoop_spec (resolve : String → Option NutritionRec) :
    ∀ (items : List String) (t : Totals) (m : List String),
      items.foldl (aggStep resolve) (t, m) =
        ({ calories := t.calories +
             (items.map (resolvedField resolve fun n => (n.calories : ℚ))).sum,
           protein := t.protein +
             (items.map (resolvedField resolve fun n => n.protein)).sum,
           carbs := t.carbs +
             (items.map (resolvedField resolve fun n => n.carbs)).sum,
           fat := t.fat +
             (items.map (resolvedField resolve fun n => n.fat)).sum,
           fiber := t.fiber +
             (items.map (resolvedField resolve fun n => n.fiber)).sum },
         m ++ items.filter (fun i => (resolve i).isNone))
  | [], t, m => by simp
  | i :: is, t, m => by
    cases h : resolve i with
    | none =>
      have ih := aggLoop_spec resolve is t (m ++ [i])
      simp only [List.foldl_cons, aggStep, h] at ih ⊢
      rw [ih]
      simp [resolvedField, h, List.filter_cons]
    | some n =>
      have ih := aggLoop_spec resolve is
        ({ calories := t.calories + (n.calories : ℚ),
           protein := t.protein + n.protein, carbs := t.carbs + n.carbs,
           fat := t.fat + n.fat, fiber := t.fiber + n.fiber }) m
      simp only [List.foldl_cons, aggStep, h] at ih ⊢
      rw [ih]
      simp [resolvedField, h, List.filter_cons, add_assoc]

lemma aggregatePlate_spec (resolve : String → Option NutritionRec)
    (items : List String) (portion : ℚ) :
    aggregatePlate resolve items portion =
      ({ calories :=
           (items.map (resolvedField resolve fun n => (n.calories : ℚ))).sum * portion,
         protein := (items.map (resolvedField resolve fun n => n.protein)).sum * portion,
         carbs := (items.map (resolvedField resolve fun n => n.carbs)).sum * portion,
         fat := (items.map (resolvedField resolve fun n => n.fat)).sum * portion,
         fiber := (items.map (resolvedField resolve fun n => n.fiber)).sum * portion },
       items.filter (fun i => (resolve i).isNone)) := by
  unfold aggregatePlate
  rw [aggLoop_spec]
  simp [Totals.zero, Totals.scale]

/-- C1: the five plate totals equal the sums of the individually
resolved records scaled by the portion factor; unresolved items
contribute zero and are exactly the `missing` output in input order;
the totals are invariant under reordering the items; and when every
item is unresolved the calories are `0` and `missing` is the whole
input list. -/
theorem plate_aggregation_c1 (resolve : String → Option NutritionRec)
    (items items2 : List String) (portion : ℚ)
    (hperm : items.Perm items2) :
    ((aggregatePlate resolve items portion).1.calories =
        (items.map (resolvedField resolve fun n => (n.calories : ℚ))).sum * portion ∧
      (aggregatePlate resolve items portion).1.protein =
        (items.map (resolvedField resolve fun n => n.protein)).sum * portion ∧
      (aggregatePlate resolve items portion).1.carbs =
        (items.map (resolvedField resolve fun n => n.carbs)).sum * portion ∧
      (aggregatePlate resolve items portion).1.fat =
        (items.map (resolvedField resolve fun n => n.fat)).sum * portion ∧
      (aggregatePlate resolve items portion).1.fiber =
        (items.map (resolvedField resolve fun n => n.fiber)).sum * portion) ∧
    (aggregatePlate resolve items portion).2 =
      items.filter (fun i => (resolve i).isNone) ∧
    (aggregatePlate resolve items2 portion).1 =
      (aggregatePlate resolve items portion).1 ∧
    ((∀ i ∈ items, resolve i = none) →
      (aggregatePlate resolve items portion).1.calories = 0 ∧
      (aggregatePlate resolve items portion).2 = items) := by
  have hspec := aggregatePlate_spec resolve items portion
  have hspec2 := aggregatePlate_spec resolve items2 portion
  refine ⟨⟨?_, ?_, ?_, ?_, ?_⟩, ?_, ?_, ?_⟩
  · rw [hspec]
  · rw [hspec]
  · rw [hspec]
  · rw [hspec]
  · rw [hspec]
  · rw [hspec]
  · rw [hspec, hspec2]
    refine Totals.ext_fields ?_ ?_ ?_ ?_ ?_ <;>
      simp only [] <;>
      rw [(hperm.map _).sum_eq]
  · intro hall
    constructor
    · rw [hspec]
      simp only []
      have : (items.map (resolvedField resolve fun n => (n.calories : ℚ))).sum = 0 := by
        apply List.sum_eq_zero
        intro x hx
        rcases List.mem_map.mp hx with ⟨i, hi, rfl⟩
        simp [resolvedField, hall i hi]
      rw [this, zero_mul]
    · rw [hspec]
      simp only []
      apply List.filter_eq_self.mpr
      intro i hi
      simp [hall i hi]

/-- C1 witness: the theorem applied to a concrete resolver (the local
table), the plate `["pizza", "zzz"]` with its reversal, and portion 2. -/
theorem plate_aggregation_c1_witness :
    (aggregatePlate (fun n => lookup_local n) (["zzz", "pizza"]) 2).1 =
      (aggregatePlate (fun n => lookup_local n) (["pizza", "zzz"]) 2).1 ∧
    (aggregatePlate (fun n => lookup_local n) (["pizza", "zzz"]) 2).2 = ["zzz"] ∧
    (aggregatePlate (fun n => lookup_local n) (["zzz"]) 2).1.calories = 0 ∧
    (aggregatePlate (fun n => lookup_local n) (["zzz"]) 2).2 = ["zzz"] := by
  refine ⟨(plate_aggregation_c1 (fun n => lookup_local n)
      (["pizza", "zzz"]) (["zzz", "pizza"]) 2 (by decide)).2.2.1, ?_, ?_, ?_⟩
  · have h := (plate_aggregation_c1 (fun n => lookup_local n)
      (["pizza", "zzz"]) (["zzz", "pizza"]) 2 (by decide)).2.1
    rw [h]; decide
  · exact ((plate_aggregation_c1 (fun n => lookup_local n)
      (["zzz"]) (["zzz"]) 2 (List.Perm.refl _)).2.2.2 (by decide)).1
  · exact ((plate_aggregation_c1 (fun n => lookup_local n)
      (["zzz"]) (["zzz"]) 2 (List.Perm.refl _)).2.2.2 (by decide)).2

/-- C2: the resolver normalizes the name, prefers an exact curated-table
match, then the first substring match in declared table order, and only
consults the external fallback when no table entry matches (returning
its answer, `none` included); the query `"cheese pizza"` resolves to the
table's `"pizza"` record for every fallback. -/
theorem resolver_algorithm_c2 :
    (∀ (fetch : String → Option NutritionRec) (name : String) (r : NutritionRec),
      lookup_local name = some r → get_nutrition_info fetch name = some r) ∧
    (∀ (fetch : String → Option NutritionRec) (name : String),
      lookup_local name = none → get_nutrition_info fetch name = fetch name) ∧
    (∀ (name : String) (p : String × NutritionRec),
      LOCAL_NUTRITION_DB.find? (fun q => q.1 == normalize_name name) = some p →
      lookup_local name = some p.2) ∧
    (∀ name : String,
      LOCAL_NUTRITION_DB.find? (fun q => q.1 == normalize_name name) = none →
      lookup_local name = (LOCAL_NUTRITION_DB.find? (fun p =>
        strContains (normalize_name name) p.1 ||
        strContains p.1 (normalize_name name))).map Prod.snd) ∧
    (∀ fetch : String → Option NutritionRec,
      get_nutrition_info fetch ("cheese pizza") =
        some ((LOCAL_NUTRITION_DB.get ⟨0, by decide⟩).2)) := by
  refine ⟨?_, ?_, ?_, ?_, ?_⟩
  · intro fetch name r h
    simp [get_nutrition_info, h]
  · intro fetch name h
    simp [get_nutrition_info, h]
  · intro name p h
    simp [lookup_local, h]
  · intro name h
    simp [lookup_local, h]
  · intro fetch
    have h : lookup_local ("cheese pizza") =
        some ((LOCAL_NUTRITION_DB.get ⟨0, by decide⟩).2) := by decide
    simp [get_nutrition_info, h]

/-- C2 witness: the resolver parts applied at the concrete queries
`"pizza"` (exact), `"cheese pizza"` (substring), and `"zzz"`
(external fallback only). -/
theorem resolver_algorithm_c2_witness :
    get_nutrition_info (fun _ => none) ("cheese pizza") =
      some ((LOCAL_NUTRITION_DB.get ⟨0, by decide⟩).2) ∧
    get_nutrition_info (fun _ => none) ("pizza") =
      some ((LOCAL_NUTRITION_DB.get ⟨0, by decide⟩).2) ∧
    get_nutrition_info (fun _ => none) ("zzz") = none := by
  refine ⟨resolver_algorithm_c2.2.2.2.2 (fun _ => none), ?_, ?_⟩
  · exact resolver_algorithm_c2.1 (fun _ => none) ("pizza") _ (by decide)
  · have h := resolver_algorithm_c2.2.1 (fun _ => none) ("zzz") (by decide)
    simpa using h

/-- C3 counterexample: on an empty session log the Weekly Summary page
produces no series at all (the `st.info` early exit), not 7 zero-filled
pairs as the claim states for "including an empty log". -/
theorem weekly_series_c3_counterexample : weeklySeries [] 0 = none := rfl

/-- C3 amended: whenever the weekly series is produced (the log has an
entry inside the 7-day window), it has exactly 7 pairs covering
`today-6 .. today` in day order, each day paired with the calorie sum
of the window's entries on that day, and a day with no entries reports
0; on an empty log or a window with no entries no series is produced. -/
theorem weekly_series_c3_amended (logs : List LogEntry) (today : ℤ) :
    (∀ s, weeklySeries logs today = some s →
      s.length = 7 ∧
      s = (List.range 7).map (fun i : ℕ =>
        (today - 6 + (i : ℤ),
         dayCalories (weekFiltered logs today) (today - 6 + (i : ℤ))))) ∧
    ((∃ e ∈ logs, today - 6 ≤ e.day ∧ e.day ≤ today) →
      (weeklySeries logs today).isSome) ∧
    (∀ d : ℤ, (∀ e ∈ weekFiltered logs today, e.day ≠ d) →
      dayCalories (weekFiltered logs today) d = 0) := by
  have hgood : logs.isEmpty = false → (weekFiltered logs today).isEmpty = false →
      weeklySeries logs today = some ((List.range 7).map (fun i : ℕ =>
        (today - 6 + (i : ℤ),
         dayCalories (weekFiltered logs today) (today - 6 + (i : ℤ))))) := by
    intro h1 h2
    simp [weeklySeries, h1, h2]
  refine ⟨?_, ?_, ?_⟩
  · intro s hs
    by_cases h1 : logs.isEmpty
    · rw [show weeklySeries logs today = none from by simp [weeklySeries, h1]] at hs
      simp at hs
    · by_cases h2 : (weekFiltered logs today).isEmpty
      · rw [show weeklySeries logs today = none from by
          simp [weeklySeries, h2]] at hs
        simp at hs
      · rw [hgood (by simpa using h1) (by simpa using h2)] at hs
        injection hs with h
        subst h
        simp
  · rintro ⟨e, he, h1, h2⟩
    have hmem : e ∈ weekFiltered logs today := by
      unfold weekFiltered
      rw [List.mem_filter]
      exact ⟨he, by simp [h1, h2]⟩
    have hne : ¬ (weekFiltered logs today).isEmpty := by
      rw [List.isEmpty_iff]
      intro h
      rw [h] at hmem
      exact absurd hmem (List.not_mem_nil e)
    have hlogs : ¬ logs.isEmpty := by
      rw [List.isEmpty_iff]
      intro h
      rw [h] at he
      exact absurd he (List.not_mem_nil e)
    unfold weeklySeries
    simp [hlogs, hne]
  · intro d hd
    unfold dayCalories
    have : (weekFiltered logs today).filter (fun e => e.day == d) = [] := by
      apply List.filter_eq_nil_iff.mpr
      intro e he
      simpa using hd e he
    rw [this]
    rfl

/-- C3 witness: the amended theorem applied to a one-entry log dated
day 3 with `today = 3`: the series exists and has exactly 7 pairs. -/
theorem weekly_series_c3_amended_witness :
    (weeklySeries [sampleEntry1] 3).isSome = true ∧
    ([((-3 : ℤ), (0 : ℤ)), (-2, 0), (-1, 0), (0, 0), (1, 0), (2, 0), (3, 285)]).length = 7 ∧
    weeklySeries [sampleEntry1] 3 =
      some [((-3 : ℤ), (0 : ℤ)), (-2, 0), (-1, 0), (0, 0), (1, 0), (2, 0), (3, 285)] := by
  refine ⟨?_, ?_, by decide⟩
  · exact (weekly_series_c3_amended [sampleEntry1] 3).2.1
      ⟨sampleEntry1, by decide, by decide, by decide⟩
  · exact ((weekly_series_c3_amended [sampleEntry1] 3).1
      ([((-3 : ℤ), (0 : ℤ)), (-2, 0), (-1, 0), (0, 0), (1, 0), (2, 0), (3, 285)])
      (by decide)).1

lemma insertCount_keys (m : List (String × ℕ)) (f : String) :
    (insertCount m f).map Prod.fst =
      if f ∈ m.map Prod.fst then m.map Prod.fst else m.map Prod.fst ++ [f] := by
  induction m with
  | nil => simp [insertCount]
  | cons p rest ih =>
    obtain ⟨k, c⟩ := p
    by_cases hk : k = f
    · subst hk
      simp [insertCount]
    · simp only [insertCount, if_neg hk, List.map_cons]
      rw [ih]
      by_cases hf : f ∈ rest.map Prod.fst
      · simp [hf, Ne.symm hk]
      · simp [hf, Ne.symm hk]

lemma lookupCount_cons (k : String) (c : ℕ) (rest : List (String × ℕ))
    (g : String) :
    lookupCount ((k, c) :: rest) g = if k = g then c else lookupCount rest g := by
  by_cases h : k = g
  · have hf : List.find? (fun p => p.1 == g) ((k, c) :: rest) = some (k, c) :=
      List.find?_cons_of_pos _ (by simpa using h)
    simp [lookupCount, hf, h]
  · have hf : List.find? (fun p => p.1 == g) ((k, c) :: rest) =
        List.find? (fun p => p.1 == g) rest :=
      List.find?_cons_of_neg _ (by simpa using h)
    simp [lookupCount, hf, h]

lemma insertCount_lookup (m : List (String × ℕ)) (f g : String) :
    lookupCount (insertCount m f) g =
      if g = f then lookupCount m g + 1 else lookupCount m g := by
  induction m with
  | nil =>
    rw [show insertCount [] f = [(f, 1)] from rfl, lookupCount_cons]
    by_cases h : g = f
    · simp [h, lookupCount]
    · simp [h, Ne.symm h, lookupCount]
  | cons p rest ih =>
    obtain ⟨k, c⟩ := p
    by_cases hk : k = f
    · rw [show insertCount ((k, c) :: rest) f = (k, c + 1) :: rest from by
        simp [insertCount, hk]]
      rw [lookupCount_cons, lookupCount_cons]
      by_cases hg : g = f
      · have hkg : k = g := by rw [hk, hg]
        simp [hkg, hg]
      · have hkg : k ≠ g := by
          rw [hk]
          exact fun e => hg e.symm
        simp [hkg, hg]
    · rw [show insertCount ((k, c) :: rest) f = (k, c) :: insertCount rest f from by
        simp [insertCount, hk]]
      rw [lookupCount_cons, lookupCount_cons]
      by_cases hkg : k = g
      · have hgf : g ≠ f := by
          rw [← hkg]
          exact hk
        simp [hkg, hgf]
      · simp [hkg, ih]

lemma foldl_insertCount_lookup (foods : List String) :
    ∀ (m : List (String × ℕ)) (g : String),
      lookupCount (foods.foldl insertCount m) g =
        lookupCount m g + foods.count g := by
  induction foods with
  | nil => simp
  | cons f fs ih =>
    intro m g
    simp only [List.foldl_cons]
    rw [ih, insertCount_lookup]
    by_cases h : g = f
    · subst h
      rw [List.count_cons_self]
      simp
      omega
    · rw [List.count_cons_of_ne h]
      simp [h]

lemma foldl_insertCount_keys_nodup (foods : List String) :
    ∀ m : List (String × ℕ), ((m.map Prod.fst).Nodup) →
      ((foods.foldl insertCount m).map Prod.fst).Nodup := by
  induction foods with
  | nil => intro m hm; simpa using hm
  | cons f fs ih =>
    intro m hm
    simp only [List.foldl_cons]
    apply ih
    rw [insertCount_keys]
    by_cases hf : f ∈ m.map Prod.fst
    · simpa [hf] using hm
    · simp only [hf, if_false]
      simp [List.nodup_append, hm, hf]

lemma foldl_insertCount_keys_order (foods : List String) :
    ∀ m : List (String × ℕ),
      (foods.foldl insertCount m).map Prod.fst =
        foods.foldl (fun acc f => if f ∈ acc then acc else acc ++ [f])
          (m.map Prod.fst) := by
  induction foods with
  | nil => intro m; rfl
  | cons f fs ih =>
    intro m
    simp only [List.foldl_cons]
    rw [ih, insertCount_keys]

lemma find?_eq_of_mem_of_nodup_keys
    (m : List (String × ℕ)) (p : String × ℕ)
    (hmem : p ∈ m) (hnodup : (m.map Prod.fst).Nodup) :
    m.find? (fun q => q.1 == p.1) = some p := by
  induction m with
  | nil => exact absurd hmem (List.not_mem_nil p)
  | cons q rest ih =>
    rcases List.mem_cons.mp hmem with h | h
    · subst h
      simp [List.find?]
    · have hq : q.1 ≠ p.1 := by
        intro he
        have hp1 : p.1 ∈ rest.map Prod.fst := List.mem_map_of_mem Prod.fst h
        rw [List.map_cons, List.nodup_cons] at hnodup
        exact hnodup.1 (he ▸ hp1)
      simp only [List.find?]
      have : (q.1 == p.1) = false := by simpa using hq
      rw [this]
      exact ih h (by
        rw [List.map_cons, List.nodup_cons] at hnodup
        exact hnodup.2)

lemma mem_countsOf_count (foods : List String) (p : String × ℕ)
    (hmem : p ∈ countsOf foods) : p.2 = foods.count p.1 := by
  have hnodup : ((countsOf foods).map Prod.fst).Nodup :=
    foldl_insertCount_keys_nodup foods [] (by simp)
  have hfind := find?_eq_of_mem_of_nodup_keys _ p hmem hnodup
  have hlook : lookupCount (countsOf foods) p.1 = p.2 := by
    simp [lookupCount, hfind]
  have := foldl_insertCount_lookup foods [] p.1
  unfold countsOf at hlook
  rw [hlook] at this
  simpa [lookupCount] using this

lemma food_counts_eq_countsOf (entries : List LogEntry) :
    food_counts entries = countsOf (allFoods entries) := by
  suffices h : ∀ m : List (String × ℕ),
      entries.foldl (fun m e => e.foods.foldl insertCount m) m =
        ((entries.map (fun e => e.foods)).flatten).foldl insertCount m by
    exact h []
  induction entries with
  | nil => intro m; rfl
  | cons e rest ih =>
    intro m
    simp only [List.foldl_cons, List.map_cons, List.flatten_cons,
      List.foldl_append]
    exact ih _

lemma filter_count_orderedInsert (a : String × ℕ) (l : List (String × ℕ))
    (c : ℕ) :
    (List.orderedInsert countGE a l).filter (fun x => x.2 == c) =
      (if a.2 = c then [a] else []) ++ l.filter (fun x => x.2 == c) := by
  induction l with
  | nil =>
    by_cases h : a.2 = c
    · simp [List.orderedInsert, h]
    · have hb : (a.2 == c) = false := by simpa using h
      simp [List.orderedInsert, h, hb]
  | cons b t ih =>
    by_cases hr : countGE a b
    · rw [show List.orderedInsert countGE a (b :: t) = a :: b :: t from by
        simp [List.orderedInsert, hr]]
      by_cases h : a.2 = c
      · simp [List.filter_cons, h]
      · have hb : (a.2 == c) = false := by simpa using h
        simp [List.filter_cons, h, hb]
    · rw [show List.orderedInsert countGE a (b :: t) =
          b :: List.orderedInsert countGE a t from by
        simp [List.orderedInsert, hr]]
      by_cases ha : a.2 = c
      · have hbc : b.2 ≠ c := by
          unfold countGE at hr
          omega
        have hb : (b.2 == c) = false := by simpa using hbc
        simp [List.filter_cons, hb, ih, ha]
      · have hA : (a.2 == c) = false := by simpa using ha
        simp [List.filter_cons, ih, ha, hA]

lemma filter_count_insertionSort (l : List (String × ℕ)) (c : ℕ) :
    (l.insertionSort countGE).filter (fun x => x.2 == c) =
      l.filter (fun x => x.2 == c) := by
  induction l with
  | nil => rfl
  | cons a t ih =>
    rw [List.insertionSort, filter_count_orderedInsert, ih, List.filter_cons]
    by_cases h : a.2 = c
    · simp [h]
    · have : (a.2 == c) = false := by simpa using h
      simp [h, this]

/-- C5: `topFoodsAll` counts every occurrence of every food across the
entries (an entry listing 3 foods contributes 3 counts), sorts by count
descending, and breaks ties by first-encounter order: the counts list
is keyed in first-encounter order and the sort preserves the relative
order of equal counts; on the two sample entries
`[{foods:[pizza,salad]}, {foods:[pizza]}]` it returns
`[(pizza,2), (salad,1)]`. -/
theorem top_foods_c5 (entries : List LogEntry) :
    (∀ p ∈ topFoodsAll entries, p.2 = (allFoods entries).count p.1) ∧
    (topFoodsAll entries).Sorted countGE ∧
    (∀ c : ℕ, (topFoodsAll entries).filter (fun x => x.2 == c) =
      (food_counts entries).filter (fun x => x.2 == c)) ∧
    (food_counts entries).map Prod.fst = specOrder (allFoods entries) ∧
    topFoodsAll [sampleEntry1, sampleEntry2] = [("pizza", 2), ("salad", 1)] := by
  refine ⟨?_, ?_, ?_, ?_, by decide⟩
  · intro p hp
    have hmem : p ∈ food_counts entries :=
      (List.mem_insertionSort countGE).mp hp
    rw [food_counts_eq_countsOf] at hmem
    exact mem_countsOf_count _ p hmem
  · exact List.sorted_insertionSort countGE _
  · intro c
    exact filter_count_insertionSort _ c
  · rw [food_counts_eq_countsOf]
    exact foldl_insertCount_keys_order (allFoods entries) []

/-- C5 witness: the theorem applied to the sample entries; the count of
`pizza` in the output is its occurrence count 2. -/
theorem top_foods_c5_witness :
    (("pizza", 2) : String × ℕ).2 =
      (allFoods [sampleEntry1, sampleEntry2]).count ("pizza", 2).1 ∧
    topFoodsAll [sampleEntry1, sampleEntry2] = [("pizza", 2), ("salad", 1)] :=
  ⟨(top_foods_c5 [sampleEntry1, sampleEntry2]).1 ("pizza", 2) (by decide),
   (top_foods_c5 [sampleEntry1, sampleEntry2]).2.2.2.2⟩

lemma ne_of_data_head {s t : String} (h : s.data.head? ≠ t.data.head?) :
    s ≠ t :=
  fun e => h (by rw [e])

lemma summaryLine_head (n : ℕ) (c : ℤ) :
    (summaryLine n c).data.head? = some '📊' := rfl

lemma macrosLine_head (p c f : ℚ) :
    (macrosLine p c f).data.head? = some 'A' := rfl

lemma summaryLine_not_in_nine (n : ℕ) (c : ℤ) :
    summaryLine n c ∉ nineVerdicts := by
  intro hmem
  have hhead := summaryLine_head n c
  simp only [nineVerdicts, List.mem_cons, List.not_mem_nil, or_false] at hmem
  rcases hmem with h | h | h | h | h | h | h | h | h <;>
    (rw [h] at hhead; exact absurd hhead (by decide))

lemma macrosLine_not_in_nine (p c f : ℚ) :
    macrosLine p c f ∉ nineVerdicts := by
  intro hmem
  have hhead := macrosLine_head p c f
  simp only [nineVerdicts, List.mem_cons, List.not_mem_nil, or_false] at hmem
  rcases hmem with h | h | h | h | h | h | h | h | h <;>
    (rw [h] at hhead; exact absurd hhead (by decide))

lemma calorieVerdict_mem_nine (goal : String) (t : ℤ) :
    calorieVerdict goal t ∈ nineVerdicts := by
  unfold calorieVerdict
  by_cases h1 : t < (targetBand goal).1
  · rw [if_pos h1]
    split_ifs <;> simp [nineVerdicts]
  · rw [if_neg h1]
    by_cases h2 : (targetBand goal).2 < t
    · rw [if_pos h2]
      split_ifs <;> simp [nineVerdicts]
    · rw [if_neg h2]
      split_ifs <;> simp [nineVerdicts]

lemma proteinVerdict_not_in_nine (p : ℚ) :
    proteinVerdict p ∉ nineVerdicts := by
  unfold proteinVerdict
  split_ifs <;> decide

lemma calorieVerdict_cases (goal : String) (t bmin bmax : ℤ)
    (blw ab wi : String)
    (hband : targetBand goal = (bmin, bmax))
    (hb : (if goal = "lose" then belowLoseMsg
           else if goal = "gain" then belowGainMsg else belowMaintainMsg) = blw)
    (ha : (if goal = "lose" then aboveLoseMsg
           else if goal = "gain" then aboveGainMsg else aboveMaintainMsg) = ab)
    (hw : (if goal = "lose" then withinLoseMsg
           else if goal = "gain" then withinGainMsg else withinMaintainMsg) = wi) :
    calorieVerdict goal t =
      if t < bmin then blw else if bmax < t then ab else wi := by
  unfold calorieVerdict
  rw [hband]
  by_cases h1 : t < bmin
  · rw [if_pos (show t < (bmin, bmax).1 from h1), if_pos h1, hb]
  · rw [if_neg (show ¬ t < (bmin, bmax).1 from h1), if_neg h1]
    by_cases h2 : bmax < t
    · rw [if_pos (show (bmin, bmax).2 < t from h2), if_pos h2, ha]
    · rw [if_neg (show ¬ (bmin, bmax).2 < t from h2), if_neg h2, hw]

lemma carbFatNotes_countP_nine (c f : ℚ) :
    (carbFatNotes c f).countP (fun s => decide (s ∈ nineVerdicts)) = 0 := by
  unfold carbFatNotes
  have h1 : carbHeavyMsg ∉ nineVerdicts := by decide
  have h2 : fatHeavyMsg ∉ nineVerdicts := by decide
  split_ifs <;> simp [List.countP_cons, h1, h2]

/-- C4: the coach's calorie bands are lose→[1400,1900], gain→[2200,2800],
maintain→[1800,2300]; the nine band verdict wordings are pairwise
distinct; a non-empty day emits exactly one of the nine; the verdict
appears among the emitted lines; the verdict selection follows
below = `total < min`, above = `total > max`, within otherwise, with the
goal-specific wording; and goal `lose` with 1000 kcal gets the
below-weight-loss wording, not the gain or maintain one. -/
theorem coach_bands_c4 (goal : String) (entries : List LogEntry)
    (h : entries ≠ []) :
    targetBand ("lose") = (1400, 1900) ∧
    targetBand ("gain") = (2200, 2800) ∧
    targetBand ("maintain") = (1800, 2300) ∧
    nineVerdicts.Pairwise (· ≠ ·) ∧
    (generate_coach_lines goal entries).countP
      (fun s => decide (s ∈ nineVerdicts)) = 1 ∧
    calorieVerdict goal (totalCals entries) ∈ generate_coach_lines goal entries ∧
    (∀ t : ℤ,
      (t < 1400 → calorieVerdict ("lose") t = belowLoseMsg) ∧
      (1400 ≤ t → t ≤ 1900 → calorieVerdict ("lose") t = withinLoseMsg) ∧
      (1900 < t → calorieVerdict ("lose") t = aboveLoseMsg) ∧
      (t < 2200 → calorieVerdict ("gain") t = belowGainMsg) ∧
      (2200 ≤ t → t ≤ 2800 → calorieVerdict ("gain") t = withinGainMsg) ∧
      (2800 < t → calorieVerdict ("gain") t = aboveGainMsg) ∧
      (t < 1800 → calorieVerdict ("maintain") t = belowMaintainMsg) ∧
      (1800 ≤ t → t ≤ 2300 → calorieVerdict ("maintain") t = withinMaintainMsg) ∧
      (2300 < t → calorieVerdict ("maintain") t = aboveMaintainMsg)) ∧
    calorieVerdict ("lose") 1000 = belowLoseMsg ∧
    belowLoseMsg ≠ belowMaintainMsg ∧ belowLoseMsg ≠ belowGainMsg := by
  have hne : entries.isEmpty = false := by
    simpa [List.isEmpty_iff] using h
  refine ⟨by decide, by decide, by decide, by decide, ?_, ?_, ?_, by decide,
    by decide, by decide⟩
  · have hs : (decide (summaryLine entries.length (totalCals entries) ∈
        nineVerdicts)) = false :=
      decide_eq_false (summaryLine_not_in_nine _ _)
    have hm : (decide (macrosLine (totalProtein entries) (totalCarbs entries)
        (totalFat entries) ∈ nineVerdicts)) = false :=
      decide_eq_false (macrosLine_not_in_nine _ _ _)
    have hv : (decide (calorieVerdict goal (totalCals entries) ∈
        nineVerdicts)) = true :=
      decide_eq_true (calorieVerdict_mem_nine _ _)
    have hp : (decide (proteinVerdict (totalProtein entries) ∈
        nineVerdicts)) = false :=
      decide_eq_false (proteinVerdict_not_in_nine _)
    have ht : (decide (tipMsg ∈ nineVerdicts)) = false :=
      decide_eq_false (by decide)
    unfold generate_coach_lines
    rw [hne]
    simp only [Bool.false_eq_true, if_false, List.countP_append,
      List.countP_cons, List.countP_nil, hs, hm, hv, hp, ht,
      carbFatNotes_countP_nine]
    rfl
  · unfold generate_coach_lines
    rw [hne]
    simp
  · intro t
    have hlose := calorieVerdict_cases ("lose") t 1400 1900
      belowLoseMsg aboveLoseMsg withinLoseMsg (by decide) (by decide)
      (by decide) (by decide)
    have hgain := calorieVerdict_cases ("gain") t 2200 2800
      belowGainMsg aboveGainMsg withinGainMsg (by decide) (by decide)
      (by decide) (by decide)
    have hmain := calorieVerdict_cases ("maintain") t 1800 2300
      belowMaintainMsg aboveMaintainMsg withinMaintainMsg (by decide)
      (by decide) (by decide) (by decide)
    refine ⟨?_, ?_, ?_, ?_, ?_, ?_, ?_, ?_, ?_⟩
    · intro h1
      rw [hlose, if_pos h1]
    · intro h1 h2
      rw [hlose, if_neg (show ¬ t < 1400 by omega),
        if_neg (show ¬ 1900 < t by omega)]
    · intro h1
      rw [hlose, if_neg (show ¬ t < 1400 by omega), if_pos h1]
    · intro h1
      rw [hgain, if_pos h1]
    · intro h1 h2
      rw [hgain, if_neg (show ¬ t < 2200 by omega),
        if_neg (show ¬ 2800 < t by omega)]
    · intro h1
      rw [hgain, if_neg (show ¬ t < 2200 by omega), if_pos h1]
    · intro h1
      rw [hmain, if_pos h1]
    · intro h1 h2
      rw [hmain, if_neg (show ¬ t < 1800 by omega),
        if_neg (show ¬ 2300 < t by omega)]
    · intro h1
      rw [hmain, if_neg (show ¬ t < 1800 by omega), if_pos h1]

/-- C4 witness: the theorem applied to the one-entry sample day with
goal `lose`: exactly one verdict among the lines, and the 1000-kcal
example picks the below-weight-loss wording. -/
theorem coach_bands_c4_witness :
    (generate_coach_lines ("lose") [sampleEntry1]).countP
      (fun s => decide (s ∈ nineVerdicts)) = 1 ∧
    calorieVerdict ("lose") 1000 = belowLoseMsg := by
  have h := coach_bands_c4 ("lose") [sampleEntry1] (by decide)
  exact ⟨h.2.2.2.2.1, h.2.2.2.2.2.2.2.1⟩

lemma mem_coach_lines_iff (msg : String) (goal : String)
    (entries : List LogEntry) (h : entries ≠ [])
    (hns : ∀ n c, msg ≠ summaryLine n c)
    (hnm : ∀ p c f, msg ≠ macrosLine p c f)
    (hnv : msg ∉ nineVerdicts)
    (hnp : ∀ p, msg ≠ proteinVerdict p)
    (hnt : msg ≠ tipMsg) :
    (msg ∈ generate_coach_lines goal entries ↔
      msg ∈ carbFatNotes (totalCarbs entries) (totalFat entries)) := by
  have hne : entries.isEmpty = false := by
    simpa [List.isEmpty_iff] using h
  have h1 := hns entries.length (totalCals entries)
  have h2 := hnm (totalProtein entries) (totalCarbs entries) (totalFat entries)
  have h3 : msg ≠ calorieVerdict goal (totalCals entries) := by
    intro e
    exact hnv (e ▸ calorieVerdict_mem_nine goal (totalCals entries))
  have h4 := hnp (totalProtein entries)
  unfold generate_coach_lines
  rw [hne]
  simp [h1, h2, h3, h4, hnt]

lemma carbHeavy_not_summary (n : ℕ) (c : ℤ) :
    carbHeavyMsg ≠ summaryLine n c := by
  apply ne_of_data_head
  rw [summaryLine_head]
  decide

lemma carbHeavy_not_macros (p c f : ℚ) :
    carbHeavyMsg ≠ macrosLine p c f := by
  apply ne_of_data_head
  rw [macrosLine_head]
  decide

lemma fatHeavy_not_summary (n : ℕ) (c : ℤ) :
    fatHeavyMsg ≠ summaryLine n c := by
  apply ne_of_data_head
  rw [summaryLine_head]
  decide

lemma fatHeavy_not_macros (p c f : ℚ) :
    fatHeavyMsg ≠ macrosLine p c f := by
  apply ne_of_data_head
  rw [macrosLine_head]
  decide

lemma carbHeavy_mem_notes_iff (c f : ℚ) :
    carbHeavyMsg ∈ carbFatNotes c f ↔ f * 4 < c := by
  unfold carbFatNotes
  by_cases h1 : f * 4 < c
  · rw [if_pos h1]
    simp [h1]
  · by_cases h2 : c < f
    · rw [if_neg h1, if_pos h2]
      have hne2 : carbHeavyMsg ≠ fatHeavyMsg := by decide
      simp [hne2, h1]
    · rw [if_neg h1, if_neg h2]
      simp [h1]

lemma fatHeavy_mem_notes_iff (c f : ℚ) :
    fatHeavyMsg ∈ carbFatNotes c f ↔ (¬ f * 4 < c ∧ c < f) := by
  unfold carbFatNotes
  by_cases h1 : f * 4 < c
  · rw [if_pos h1]
    have hne2 : fatHeavyMsg ≠ carbHeavyMsg := by decide
    simp [hne2, h1]
  · by_cases h2 : c < f
    · rw [if_neg h1, if_pos h2]
      simp [h1, h2]
    · rw [if_neg h1, if_neg h2]
      simp [h1, h2]

/-- C6: on a non-empty day the coach emits the carb-heavy note iff
`totalCarbs > totalFat * 4`, and the fat-heavy note iff the carb-heavy
condition fails and `totalFat > totalCarbs`; the two notes never
co-occur, and with both totals zero neither fires. -/
theorem coach_balance_c6 (goal : String) (entries : List LogEntry)
    (h : entries ≠ []) :
    (carbHeavyMsg ∈ generate_coach_lines goal entries ↔
      totalFat entries * 4 < totalCarbs entries) ∧
    (fatHeavyMsg ∈ generate_coach_lines goal entries ↔
      (¬ totalFat entries * 4 < totalCarbs entries ∧
        totalCarbs entries < totalFat entries)) ∧
    ¬ (carbHeavyMsg ∈ generate_coach_lines goal entries ∧
       fatHeavyMsg ∈ generate_coach_lines goal entries) ∧
    (totalCarbs entries = 0 → totalFat entries = 0 →
      carbHeavyMsg ∉ generate_coach_lines goal entries ∧
      fatHeavyMsg ∉ generate_coach_lines goal entries) := by
  have hcmem : carbHeavyMsg ∈ generate_coach_lines goal entries ↔
      totalFat entries * 4 < totalCarbs entries := by
    rw [mem_coach_lines_iff carbHeavyMsg goal entries h carbHeavy_not_summary
      carbHeavy_not_macros (by decide)
      (fun p => by unfold proteinVerdict; split_ifs <;> decide) (by decide)]
    exact carbHeavy_mem_notes_iff _ _
  have hfmem : fatHeavyMsg ∈ generate_coach_lines goal entries ↔
      (¬ totalFat entries * 4 < totalCarbs entries ∧
        totalCarbs entries < totalFat entries) := by
    rw [mem_coach_lines_iff fatHeavyMsg goal entries h fatHeavy_not_summary
      fatHeavy_not_macros (by decide)
      (fun p => by unfold proteinVerdict; split_ifs <;> decide) (by decide)]
    exact fatHeavy_mem_notes_iff _ _
  refine ⟨hcmem, hfmem, ?_, ?_⟩
  · rintro ⟨hc, hf⟩
    exact (hfmem.mp hf).1 (hcmem.mp hc)
  · intro hc hf
    constructor
    · rw [hcmem, hc, hf]
      norm_num
    · rw [hfmem, hc, hf]
      norm_num

/-- C6 witness: the theorem applied to the sample day (carbs 36, fat
10): the carb-heavy condition fails and no balance note fires. -/
theorem coach_balance_c6_witness :
    (carbHeavyMsg ∈ generate_coach_lines ("lose") [sampleEntry1] ↔
      totalFat [sampleEntry1] * 4 < totalCarbs [sampleEntry1]) ∧
    (carbHeavyMsg ∈ generate_coach_lines ("lose") [sampleEntry1] → False) := by
  have h := coach_balance_c6 ("lose") [sampleEntry1] (by decide)
  refine ⟨h.1, ?_⟩
  intro hc
  have hlt := h.1.mp hc
  have : ¬ (totalFat [sampleEntry1] * 4 < totalCarbs [sampleEntry1]) := by
    norm_num [totalFat, totalCarbs, sampleEntry1]
  exact this hlt

/-- C7 counterexample: for goal `lose` with calories 500, fat 5 and
fiber 2.5 on a keyword-free name, the source also emits the lose-goal
fiber note (`fiber < 3`), which the claimed rule sequence does not
contain. -/
theorem recommendations_c7_counterexample :
    get_meal_recommendations ("rice")
        ({ calories := 500, protein := 12, carbs := 10, fat := 5,
           fiber := mkRat 5 2, vitamins := [], minerals := [] }) ("lose") =
      [recFitsLose 500, recLoseFiber] ∧
    recsClaimedC7 ("rice")
        ({ calories := 500, protein := 12, carbs := 10, fat := 5,
           fiber := mkRat 5 2, vitamins := [], minerals := [] }) ("lose") =
      [recFitsLose 500] ∧
    get_meal_recommendations ("rice")
        ({ calories := 500, protein := 12, carbs := 10, fat := 5,
           fiber := mkRat 5 2, vitamins := [], minerals := [] }) ("lose") ≠
      recsClaimedC7 ("rice")
        ({ calories := 500, protein := 12, carbs := 10, fat := 5,
           fiber := mkRat 5 2, vitamins := [], minerals := [] }) ("lose") := by
  refine ⟨by decide, by decide, by decide⟩

/-- C7 amended: the recommendation engine emits exactly the claimed
fixed rule sequence with one addition: for goal `lose` the secondary
checks are `fat > 20` and then `fiber < 3`. -/
theorem recommendations_c7_amended (food_name : String)
    (nutrition : NutritionRec) (goal : String) :
    get_meal_recommendations food_name nutrition goal =
      recsAmendedC7 food_name nutrition goal := rfl

/-- C8 counterexample: a single concept with confidence 0.4 (which is
at least the claimed 0.3 threshold) is still reported as `"unknown"`;
the source threshold `FOOD_CONFIDENCE_THRESHOLD` is 0.5, not 0.3. -/
theorem recognition_c8_counterexample :
    (mkRat 3 10 ≤ mkRat 2 5) ∧
    (recognize_food_advanced
        (some [{ name := some ("pasta"), value := mkRat 2 5 }])).name =
      "unknown" ∧
    FOOD_CONFIDENCE_THRESHOLD = 1/2 := by
  refine ⟨by norm_num, by decide, by norm_num [FOOD_CONFIDENCE_THRESHOLD]⟩

lemma sort_nonempty_of_cons {cs : List FoodConcept} {main : FoodConcept}
    {rest : List FoodConcept}
    (hsort : cs.insertionSort confGE = main :: rest) :
    cs.isEmpty = false := by
  cases cs with
  | nil => simp [List.insertionSort] at hsort
  | cons a t => rfl

/-- C8 amended: the recognizer returns `"unknown"` exactly on an absent
or empty classifier response or a top confidence below the source
threshold 0.5 (not 0.3); above the threshold it reports the top label
(default `"unknown"` when absent) and its confidence, and the
alternatives come from the 5 concepts after the first (confidence
order), each with a present non-empty label and confidence at least
0.2; the Scan Food page then rejects a result iff its name is
`"unknown"` or its confidence is below 0.3. -/
theorem recognition_c8_amended :
    FOOD_CONFIDENCE_THRESHOLD = 1/2 ∧
    recognize_food_advanced none =
      { name := "unknown", confidence := 0, alternatives := [] } ∧
    recognize_food_advanced (some []) =
      { name := "unknown", confidence := 0, alternatives := [] } ∧
    (∀ (cs : List FoodConcept) (main : FoodConcept)
        (rest : List FoodConcept),
      cs.insertionSort confGE = main :: rest →
      (main.value < FOOD_CONFIDENCE_THRESHOLD →
        recognize_food_advanced (some cs) =
          { name := "unknown", confidence := main.value,
            alternatives := [] }) ∧
      (FOOD_CONFIDENCE_THRESHOLD ≤ main.value →
        (recognize_food_advanced (some cs)).name =
          main.name.getD ("unknown") ∧
        (recognize_food_advanced (some cs)).confidence = main.value ∧
        (recognize_food_advanced (some cs)).alternatives.length ≤ 5 ∧
        (∀ s ∈ (recognize_food_advanced (some cs)).alternatives,
          ∃ c ∈ rest.take 5, c.name = some s ∧ s ≠ "" ∧ mkRat 1 5 ≤ c.value))) ∧
    (∀ r : RecogResult,
      appRejects r = true ↔ (r.name = "unknown" ∨ r.confidence < mkRat 3 10)) := by
  refine ⟨by norm_num [FOOD_CONFIDENCE_THRESHOLD], rfl, rfl, ?_, ?_⟩
  · intro cs main rest hsort
    have hne := sort_nonempty_of_cons hsort
    constructor
    · intro hlt
      simp only [recognize_food_advanced, hne, Bool.false_eq_true, if_false,
        hsort]
      rw [if_pos hlt]
    · intro hge
      have hrec : recognize_food_advanced (some cs) =
          { name := main.name.getD ("unknown"), confidence := main.value,
            alternatives := (rest.take 5).filterMap (fun c =>
              match c.name with
              | some s => if s ≠ "" ∧ mkRat 1 5 ≤ c.value then some s else none
              | none => none) } := by
        simp only [recognize_food_advanced, hne, Bool.false_eq_true, if_false,
          hsort]
        rw [if_neg (not_lt.mpr hge)]
      rw [hrec]
      refine ⟨rfl, rfl, ?_, ?_⟩
      · exact le_trans (List.length_filterMap_le _ _)
          (List.length_take_le 5 rest)
      · intro s hs
        rcases List.mem_filterMap.mp hs with ⟨c, hc, hf⟩
        cases hn : c.name with
        | none => rw [hn] at hf; simp at hf
        | some s2 =>
          rw [hn] at hf
          simp at hf
          obtain ⟨⟨hs2, hval⟩, rfl⟩ := hf
          exact ⟨c, hc, hn, hs2, hval⟩
  · intro r
    unfold appRejects
    simp

/-- C8 witness: the amended theorem applied to two concrete singleton
classifier responses, one below and one above the 0.5 threshold. -/
theorem recognition_c8_amended_witness :
    recognize_food_advanced
        (some [{ name := some ("pasta"), value := mkRat 2 5 }]) =
      { name := "unknown", confidence := mkRat 2 5, alternatives := [] } ∧
    (recognize_food_advanced
        (some [{ name := some ("pizza"), value := mkRat 9 10 }])).name =
      "pizza" := by
  have h1 := (recognition_c8_amended.2.2.2.1
      [{ name := some ("pasta"), value := mkRat 2 5 }]
      ({ name := some ("pasta"), value := mkRat 2 5 }) [] rfl).1
    (by norm_num [FOOD_CONFIDENCE_THRESHOLD])
  have h2 := ((recognition_c8_amended.2.2.2.1
      [{ name := some ("pizza"), value := mkRat 9 10 }]
      ({ name := some ("pizza"), value := mkRat 9 10 }) [] rfl).2
    (by norm_num [FOOD_CONFIDENCE_THRESHOLD])).1
  exact ⟨h1, by rw [h2]; rfl⟩

lemma db_invariant : ∀ p ∈ LOCAL_NUTRITION_DB, recInvariant p.2 := by decide

lemma lookup_val_mem {l : List (String × ℚ)} {k : String} {v : ℚ}
    (h : List.lookup k l = some v) : ∃ kv ∈ l, kv.2 = v := by
  induction l with
  | nil => simp [List.lookup] at h
  | cons a t ih =>
    rw [List.lookup] at h
    cases he : (k == a.1) with
    | true =>
      rw [he] at h
      simp only [Option.some.injEq] at h
      exact ⟨a, List.mem_cons_self a t, h⟩
    | false =>
      rw [he] at h
      rcases ih h with ⟨kv, hkv, hv⟩
      exact ⟨kv, List.mem_cons_of_mem _ hkv, hv⟩

lemma pyTrunc_nonneg {q : ℚ} (hq : 0 ≤ q) : 0 ≤ pyTrunc q :=
  Int.tdiv_nonneg (Rat.num_nonneg.mpr hq) (by positivity)

lemma pyRound_nonneg {q : ℚ} (hq : 0 ≤ q) : 0 ≤ pyRound q := by
  have hf : (0 : ℤ) ≤ ⌊q⌋ := Int.floor_nonneg.mpr hq
  simp only [pyRound]
  split_ifs <;> omega

lemma round1_nonneg {q : ℚ} (hq : 0 ≤ q) : 0 ≤ round1 q := by
  unfold round1
  apply Rat.divInt_nonneg _ (by norm_num)
  exact_mod_cast pyRound_nonneg (by positivity)

/-- C9 counterexample: a collaborator response whose `energy-kcal_100g`
is -5 produces a record with negative calories; the mapper never clamps
the collaborator's numbers, so the invariant does not hold for every
possible collaborator response. -/
theorem nutrition_invariant_c9_counterexample :
    (fetch_from_openfoodfacts
        (some { products := [{ nutriments := [("energy-kcal_100g", -5)] }] })).map
      (fun r => r.calories) = some (-5) ∧
    ¬ (0 ≤ (-5 : ℤ)) := by
  constructor
  · rfl
  · decide

/-- C9 amended: every curated-table record satisfies the invariant
(calories ≥ 0 and all macro grams ≥ 0); a record mapped from an
external response satisfies it whenever the response's nutriment values
are non-negative; and the resolver preserves it under any fallback that
does. -/
theorem nutrition_invariant_c9_amended :
    (∀ p ∈ LOCAL_NUTRITION_DB, recInvariant p.2) ∧
    (∀ (resp : OFFResponse) (r : NutritionRec),
      (∀ prod ∈ resp.products, nonnegProduct prod) →
      fetch_from_openfoodfacts (some resp) = some r → recInvariant r) ∧
    (∀ (fetch : String → Option NutritionRec) (name : String)
        (r : NutritionRec),
      (∀ n r2, fetch n = some r2 → recInvariant r2) →
      get_nutrition_info fetch name = some r → recInvariant r) := by
  refine ⟨db_invariant, ?_, ?_⟩
  · intro resp r hP hfetch
    cases hp : resp.products with
    | nil =>
      rw [fetch_from_openfoodfacts, hp] at hfetch
      exact absurd hfetch (by simp)
    | cons product tl =>
      rw [fetch_from_openfoodfacts, hp] at hfetch
      have hprod : product ∈ resp.products := by
        rw [hp]
        exact List.mem_cons_self product tl
      have hg : ∀ key : String,
          0 ≤ ((product.nutriments.lookup (key ++ "_100g")).getD 0) := by
        intro key
        cases hl : product.nutriments.lookup (key ++ "_100g") with
        | none => simp
        | some v =>
          rcases lookup_val_mem hl with ⟨kv, hkv, hv⟩
          simpa [hv] using hP product hprod kv hkv
      injection hfetch with hr
      rw [← hr]
      refine ⟨pyTrunc_nonneg (hg _), round1_nonneg (hg _),
        round1_nonneg (hg _), round1_nonneg (hg _), round1_nonneg (hg _)⟩
  · intro fetch name r hF hres
    rw [get_nutrition_info] at hres
    cases hl : lookup_local name with
    | some r2 =>
      rw [hl] at hres
      injection hres with hr
      rw [← hr]
      rw [lookup_local] at hl
      cases hfind : LOCAL_NUTRITION_DB.find?
          (fun p => p.1 == normalize_name name) with
      | some p =>
        rw [hfind] at hl
        injection hl with hp
        rw [← hp]
        exact db_invariant p (List.mem_of_find?_eq_some hfind)
      | none =>
        rw [hfind] at hl
        cases hpf : LOCAL_NUTRITION_DB.find? (fun p =>
            strContains (normalize_name name) p.1 ||
            strContains p.1 (normalize_name name)) with
        | none =>
          rw [hpf] at hl
          simp at hl
        | some p =>
          rw [hpf] at hl
          simp at hl
          rw [← hl]
          exact db_invariant p (List.mem_of_find?_eq_some hpf)
    | none =>
      rw [hl] at hres
      exact hF name r hres

/-- C9 witness: the amended theorem applied to the `pizza` table record
directly and through the resolver with an empty fallback. -/
theorem nutrition_invariant_c9_amended_witness :
    recInvariant ((LOCAL_NUTRITION_DB.get ⟨0, by decide⟩).2) ∧
    recInvariant ((LOCAL_NUTRITION_DB.get ⟨2, by decide⟩).2) := by
  constructor
  · exact nutrition_invariant_c9_amended.1 _ (by decide)
  · exact nutrition_invariant_c9_amended.2.2 (fun _ => none) ("idli") _
      (fun n r2 h => absurd h (by simp)) (by decide)

lemma zzz_plate_calories :
    (aggregatePlate (fun n => lookup_local n) (["zzz"]) 1).1.calories = 0 := by
  have hz : lookup_local ("zzz") = none := by decide
  rw [aggregatePlate_spec]
  simp [resolvedField, hz]

/-- C10 counterexample: with `["zzz"]` selected (unresolvable, combined
calories 0) and main item `pizza`, the weight-impact figures do fall
back to the main record times the portion, but the logged foods list is
the selected `["zzz"]`, not the claimed single main food name. -/
theorem scan_log_c10_counterexample :
    (aggregatePlate (fun n => lookup_local n) (["zzz"]) 1).1.calories = 0 ∧
    usedTotals (fun n => lookup_local n) (["zzz"]) 1
        ((LOCAL_NUTRITION_DB.get ⟨0, by decide⟩).2) =
      scaleRec ((LOCAL_NUTRITION_DB.get ⟨0, by decide⟩).2) 1 ∧
    entryFoods (["zzz"]) ("pizza") = ["zzz"] ∧
    (["zzz"] : List String) ≠ ["pizza"] := by
  refine ⟨zzz_plate_calories, ?_, by decide, by decide⟩
  show (if 0 < (aggregatePlate (fun n => lookup_local n) (["zzz"]) 1).1.calories
      then (aggregatePlate (fun n => lookup_local n) (["zzz"]) 1).1
      else scaleRec ((LOCAL_NUTRITION_DB.get ⟨0, by decide⟩).2) 1) =
    scaleRec ((LOCAL_NUTRITION_DB.get ⟨0, by decide⟩).2) 1
  rw [if_neg (by rw [zzz_plate_calories]; norm_num)]

/-- C10 amended: the weight-impact and logged figures come from the
main item's record times the portion factor exactly when no items are
selected or the combined calories are not positive; the logged foods
list is the selected items whenever any are selected (even if all are
unresolved), and defaults to the single main food name only when the
selection is empty; the logged entry stores those figures rounded
(integer calories, 1-decimal macros). -/
theorem scan_log_c10_amended (resolve : String → Option NutritionRec)
    (selected_items : List String) (portion : ℚ)
    (main_nutrition : NutritionRec) (food_name : String) (today : ℤ)
    (time : String) (goal : String) :
    (selected_items = [] →
      usedTotals resolve selected_items portion main_nutrition =
        scaleRec main_nutrition portion ∧
      entryFoods selected_items food_name = [food_name]) ∧
    (selected_items ≠ [] →
      ¬ 0 < (aggregatePlate resolve selected_items portion).1.calories →
      usedTotals resolve selected_items portion main_nutrition =
        scaleRec main_nutrition portion ∧
      entryFoods selected_items food_name = selected_items) ∧
    (selected_items ≠ [] →
      0 < (aggregatePlate resolve selected_items portion).1.calories →
      usedTotals resolve selected_items portion main_nutrition =
        (aggregatePlate resolve selected_items portion).1) ∧
    (buildEntry resolve today time selected_items food_name main_nutrition
        portion goal).foods = entryFoods selected_items food_name ∧
    (buildEntry resolve today time selected_items food_name main_nutrition
        portion goal).calories =
      pyRound (usedTotals resolve selected_items portion
        main_nutrition).calories := by
  refine ⟨?_, ?_, ?_, rfl, rfl⟩
  · intro he
    subst he
    exact ⟨rfl, rfl⟩
  · intro hne hcal
    have hee : selected_items.isEmpty = false := by
      simpa [List.isEmpty_iff] using hne
    constructor
    · unfold usedTotals combinedFor
      rw [hee]
      simp only [Bool.false_eq_true, if_false]
      rw [if_neg hcal]
    · unfold entryFoods
      rw [hee]
      simp
  · intro hne hcal
    have hee : selected_items.isEmpty = false := by
      simpa [List.isEmpty_iff] using hne
    unfold usedTotals combinedFor
    rw [hee]
    simp only [Bool.false_eq_true, if_false]
    rw [if_pos hcal]

/-- C10 witness: the amended theorem applied to the empty selection and
to the unresolvable selection `["zzz"]`, with main item `pizza`. -/
theorem scan_log_c10_amended_witness :
    usedTotals (fun n => lookup_local n) (["zzz"]) 1
        ((LOCAL_NUTRITION_DB.get ⟨0, by decide⟩).2) =
      scaleRec ((LOCAL_NUTRITION_DB.get ⟨0, by decide⟩).2) 1 ∧
    entryFoods (["zzz"]) ("pizza") = ["zzz"] ∧
    usedTotals (fun n => lookup_local n) ([]) 1
        ((LOCAL_NUTRITION_DB.get ⟨0, by decide⟩).2) =
      scaleRec ((LOCAL_NUTRITION_DB.get ⟨0, by decide⟩).2) 1 ∧
    entryFoods ([]) ("pizza") = ["pizza"] := by
  have h2 := (scan_log_c10_amended (fun n => lookup_local n) (["zzz"]) 1
      ((LOCAL_NUTRITION_DB.get ⟨0, by decide⟩).2) ("pizza") 0 ("12:00")
      ("lose")).2.1 (by decide) (by rw [zzz_plate_calories]; norm_num)
  have h1 := (scan_log_c10_amended (fun n => lookup_local n) ([]) 1
      ((LOCAL_NUTRITION_DB.get ⟨0, by decide⟩).2) ("pizza") 0 ("12:00")
      ("lose")).1 rfl
  exact ⟨h2.1, h2.2, h1.1, h1.2⟩
